import Mathlib

/-!
Verification of the hyperchess session server.

The definitions below are a shallow embedding of the socket event handlers
of the main server variant (the richest of the duplicated server files:
the one declaring MAX_CONCURRENT_GAMES, MAX_SPECTATORS_PER_GAME and the
per-game clock), together with the join handler of the plain
websocket-server variant and the threefold-repetition branch of the
makeMove handler found in the stashed-changes variant of
chess-app/server/server.ts.

External collaborators are modelled as inputs: the chess.js rules engine
is represented by a MoveOutcome record carrying the data the handlers read
back from it (the FEN after the move, the terminal-condition booleans, the
SAN history and the board-derived capture tally); Date.now() is an explicit
integer argument threaded through every handler; the socket.io room
mechanism is a list of (socket, room) membership pairs.
-/

namespace Hyperchess

/-- Split a string at every single space character, as JavaScript
String.split(" ") does; consecutive spaces yield empty fields. -/
def splitSpacesAux : List Char → List Char → List String
  | [], acc => [String.mk acc.reverse]
  | c :: cs, acc =>
    if c = ' ' then String.mk acc.reverse :: splitSpacesAux cs []
    else splitSpacesAux cs (c :: acc)

def splitSpaces (s : String) : List String :=
  splitSpacesAux s.data []

/-- Rejoin a list of fields with single spaces, as Array.join(" ") does. -/
def joinSpace : List String → String
  | [] => ""
  | [s] => s
  | s :: rest => s ++ " " ++ joinSpace rest

/-- The side-to-move field of a FEN string: chess.turn() on a position
loaded from that FEN returns exactly this second space-separated field. -/
def fenTurn (fen : String) : String :=
  (splitSpaces fen).getD 1 ""

/-- The chess.js starting position FEN, produced by new Chess().fen(). -/
def startFen : String :=
  "rnbqkbnr/pppppppp/8/8/8/8/PPPPPPPP/RNBQKBNR w KQkq - 0 1"

-- Server configuration constants, verbatim from the source.
def MAX_CONCURRENT_GAMES : Nat := 1000
def MAX_SPECTATORS_PER_GAME : Nat := 50
def GAME_EXPIRY_TIME : Int := 24 * 60 * 60 * 1000
def COMPLETED_GAME_EXPIRY_TIME : Int := 1 * 60 * 60 * 1000
def INACTIVE_GAME_EXPIRY_TIME : Int := 6 * 60 * 60 * 1000
def INITIAL_TIME : Int := 5 * 60 * 1000

inductive Status where
  | waiting
  | active
  | completed
deriving DecidableEq, Repr

structure Players where
  white : Option String
  black : Option String
deriving DecidableEq, Repr

structure Captures where
  white : List String
  black : List String
deriving DecidableEq, Repr

structure Clock where
  white : Int
  black : Int
  lastMoveTime : Option Int
  started : Bool
deriving DecidableEq, Repr

/-- The GameState interface of the main server variant.  Fields that are
optional in the TypeScript interface are Options here. -/
structure GameState where
  gameId : String
  position : String
  status : Status
  turn : String
  players : Players
  spectators : List String
  captures : Option Captures
  moveHistory : Option (List String)
  positionHistory : Option (List String)
  lastActivityTime : Int
  createdAt : Int
  clock : Option Clock
deriving DecidableEq, Repr

/-- The game object built by the createGame handler. -/
def newGameFromCreate (gameId sock : String) (now : Int) : GameState :=
  { gameId := gameId
    position := startFen
    status := .waiting
    turn := "w"
    players := { white := some sock, black := none }
    spectators := []
    moveHistory := some []
    captures := some { white := [], black := [] }
    positionHistory := some [startFen]
    lastActivityTime := now
    createdAt := now
    clock := some { white := INITIAL_TIME, black := INITIAL_TIME
                    lastMoveTime := none, started := false } }

inductive JoinOutcome where
  | notFound
  | rejoined
  | spectCapacity
  | spectator
  | seatedBlack
  | ignored
deriving DecidableEq, Repr

/-- The joinGame handler once the game has been found in the map.  The
activity timestamp is written before any branch is taken, exactly as the
source mutates game.lastActivityTime first.  When neither the
reconnection, the spectator, nor the black-seat branch applies (white seat
empty but black seat taken) the handler falls through without replying:
outcome `ignored`. -/
def joinGameFound (g : GameState) (sock : String) (now : Int) :
    JoinOutcome × GameState :=
  let g := { g with lastActivityTime := now }
  if g.players.white = some sock ∨ g.players.black = some sock then
    (.rejoined, g)
  else if g.players.black.isSome ∧ g.players.white.isSome then
    if MAX_SPECTATORS_PER_GAME ≤ g.spectators.length then
      (.spectCapacity, g)
    else
      (.spectator, { g with spectators := g.spectators ++ [sock] })
  else if g.players.black.isNone then
    (.seatedBlack,
      { g with players := { g.players with black := some sock }
               status := .active })
  else
    (.ignored, g)

/-- Everything the makeMove handler reads back from chess.js once
chess.move({from, to}) has succeeded: the new FEN, the two
terminal-condition queries, the SAN history, and the capture tally that
calculateCaptures derives from the board by diffing material against the
standard starting counts.  A rejected move (chess.move returning null) is
modelled by passing none instead of some outcome. -/
structure MoveOutcome where
  fenAfter : String
  isCheckmate : Bool
  isDraw : Bool
  historyAfter : List String
  boardCaptures : Captures
deriving DecidableEq, Repr

inductive MoveReply where
  | notYourTurn
  | invalidMove
  | moved
deriving DecidableEq, Repr

/-- The turn test of the makeMove handler: the requester must hold the
seat matching the side-to-move of the stored position. -/
def isPlayersTurn (g : GameState) (sock : String) : Bool :=
  let isWhiteMove := fenTurn g.position = "w"
  (isWhiteMove && g.players.white = some sock) ||
    (!isWhiteMove && g.players.black = some sock)

/-- The clock update block of the makeMove handler: on the first move no
time is debited (lastMoveTime is still unset); afterwards the elapsed wall
time since the previous move is subtracted from the side that just moved,
read off from the side-to-move of the position after the move. -/
def clockAfterMove (c : Clock) (turnAfter : String) (now : Int) : Clock :=
  let c :=
    match c.lastMoveTime with
    | some lm =>
      let elapsed := now - lm
      if turnAfter = "b" then { c with white := c.white - elapsed }
      else { c with black := c.black - elapsed }
    | none => c
  { c with lastMoveTime := some now, started := true }

/-- The makeMove handler of the main server variant, after the game has
been found in the map.  There is no check of game.status anywhere in the
handler: the stored game is mutated only after both the turn test and the
engine acceptance.  Status is set to completed exactly when the engine
reports checkmate or a draw; the clock block runs only when the game has a
clock and never influences the status. -/
def makeMove (g : GameState) (sock : String) (mo : Option MoveOutcome)
    (now : Int) : MoveReply × GameState :=
  if !(isPlayersTurn g sock) then (.notYourTurn, g)
  else
    match mo with
    | none => (.invalidMove, g)
    | some m =>
      let g := { g with position := m.fenAfter
                        moveHistory := some m.historyAfter
                        lastActivityTime := now }
      let g :=
        if m.isCheckmate then { g with status := .completed }
        else if m.isDraw then { g with status := .completed }
        else g
      let g :=
        match g.clock with
        | some c =>
          { g with clock := some (clockAfterMove c (fenTurn m.fenAfter) now) }
        | none => g
      (.moved, { g with captures := some m.boardCaptures })

/-- The resign branch of the game_action handler: the activity timestamp
is bumped for every game_action message, then the status is set to
completed. -/
def resignGame (g : GameState) (now : Int) : GameState :=
  let g := { g with lastActivityTime := now }
  { g with status := .completed }

/-- The leave_game branch of the game_action handler: bump activity,
vacate the seat held by the requester, and mark the game completed when
both seats are now empty (the game itself is kept in the map). -/
def gameActionLeave (g : GameState) (sock : String) (now : Int) : GameState :=
  let g := { g with lastActivityTime := now }
  let p := g.players
  let p :=
    if p.white = some sock then { p with white := none }
    else if p.black = some sock then { p with black := none }
    else p
  let g := { g with players := p }
  if p.white.isNone ∧ p.black.isNone then { g with status := .completed }
  else g

/-- The standalone leaveGame handler: vacate the seat held by the
requester; when both seats are now empty the game is deleted from the map
(result none), otherwise the game survives with status reset to waiting. -/
def leaveGame (g : GameState) (sock : String) : Option GameState :=
  let p := g.players
  let p :=
    if p.white = some sock then { p with white := none }
    else if p.black = some sock then { p with black := none }
    else p
  if p.white.isNone ∧ p.black.isNone then none
  else some { g with players := p, status := .waiting }

/-- The per-game body of the disconnect handler: a spectator is removed
from the spectator list; a seated player whose game is active turns the
game into a completed one (a win by disconnect for the opponent); any
other game is untouched. -/
def disconnectGame (g : GameState) (sock : String) : GameState :=
  if sock ∈ g.spectators then
    { g with spectators := g.spectators.erase sock }
  else if (g.players.white = some sock ∨ g.players.black = some sock) ∧
      g.status = .active then
    { g with status := .completed }
  else g

/-- The per-game predicate of the cleanupGames sweep, phrased exactly as
the source's sequence of early-return tests; true means the game is kept.
-/
def cleanupKeep (now : Int) (g : GameState) : Bool :=
  if g.status = Status.completed ∧
      now - g.lastActivityTime > COMPLETED_GAME_EXPIRY_TIME then false
  else if now - g.lastActivityTime > INACTIVE_GAME_EXPIRY_TIME then false
  else if now - g.createdAt > GAME_EXPIRY_TIME then false
  else true

/-- The periodic cleanupGames sweep over the games map. -/
def cleanupGames (now : Int) (games : List (String × GameState)) :
    List (String × GameState) :=
  games.filter (fun gg => cleanupKeep now gg.2)

/-- games.get on the Map of games, modelled as an association list. -/
def lookupGame : List (String × GameState) → String → Option GameState
  | [], _ => none
  | p :: rest, gid => if p.1 = gid then some p.2 else lookupGame rest gid

/-- games.set: replace the entry when the key is present, append it at the
end otherwise. -/
def setGame : List (String × GameState) → String → GameState →
    List (String × GameState)
  | [], gid, g => [(gid, g)]
  | p :: rest, gid, g =>
    if p.1 = gid then (gid, g) :: setGame rest gid g
    else p :: setGame rest gid g

/-- games.delete. -/
def removeGame : List (String × GameState) → String →
    List (String × GameState)
  | [], _ => []
  | p :: rest, gid =>
    if p.1 = gid then removeGame rest gid else p :: removeGame rest gid

/-- socket.join(room): a no-op when the socket is already a member. -/
def roomJoin (rooms : List (String × String)) (sock room : String) :
    List (String × String) :=
  if (sock, room) ∈ rooms then rooms else rooms ++ [(sock, room)]

/-- The shared mutable state of the server: the games map and the
socket.io room memberships (socket, room). -/
structure Server where
  games : List (String × GameState)
  rooms : List (String × String)
deriving DecidableEq, Repr

/-- The createGame handler: fail when the registry already holds the
configured maximum, otherwise store a fresh waiting game seating the
caller white and subscribe the caller to the game room. -/
def serverCreate (s : Server) (gid sock : String) (now : Int) :
    Option Server :=
  if MAX_CONCURRENT_GAMES ≤ s.games.length then none
  else some
    { games := setGame s.games gid (newGameFromCreate gid sock now)
      rooms := roomJoin s.rooms sock gid }

/-- The joinGame handler at the level of the server state: an unknown id
is a not-found error leaving everything untouched; otherwise the per-game
branches run (the JavaScript mutates the game object held by the map, so
the updated game is stored back in every branch, error branches included)
and the requester joins the room exactly on the reconnection, spectator
and black-seat branches. -/
def serverJoin (s : Server) (gid sock : String) (now : Int) :
    JoinOutcome × Server :=
  match lookupGame s.games gid with
  | none => (.notFound, s)
  | some g =>
    let r := joinGameFound g sock now
    let rooms :=
      match r.1 with
      | .rejoined | .spectator | .seatedBlack => roomJoin s.rooms sock gid
      | _ => s.rooms
    (r.1, { games := setGame s.games gid r.2, rooms := rooms })

/-- The new game object built by the request_rematch handler: colors
swapped, status immediately active, fresh histories — and, unlike
createGame, no clock field at all. -/
def rematchNewGame (old : GameState) (newId : String) (now : Int) :
    GameState :=
  { gameId := newId
    position := startFen
    status := .active
    turn := "w"
    players := { white := old.players.black, black := old.players.white }
    spectators := []
    moveHistory := some []
    captures := some { white := [], black := [] }
    positionHistory := some [startFen]
    lastActivityTime := now
    createdAt := now
    clock := none }

/-- The request_rematch handler: on an unknown id only an error reply is
sent (state unchanged, modelled as none).  Otherwise the swapped successor
game is stored under a fresh id, both seated players are joined to the new
room — the handler never makes them leave the old room — and the old game
is deleted from the map. -/
def requestRematch (s : Server) (gid newId : String) (now : Int) :
    Option Server :=
  match lookupGame s.games gid with
  | none => none
  | some old =>
    let ng := rematchNewGame old newId now
    let games1 := setGame s.games newId ng
    let rooms1 :=
      match old.players.white with
      | some w => roomJoin s.rooms w newId
      | none => s.rooms
    let rooms2 :=
      match old.players.black with
      | some b => roomJoin rooms1 b newId
      | none => rooms1
    some { games := removeGame games1 gid, rooms := rooms2 }

/-- The makeMove handler at the level of the games map: an unknown id is
an error with nothing touched; otherwise the per-game handler runs and
its result is stored back. -/
def serverMakeMove (games : List (String × GameState)) (gid sock : String)
    (mo : Option MoveOutcome) (now : Int) :
    Option MoveReply × List (String × GameState) :=
  match lookupGame games gid with
  | none => (none, games)
  | some g =>
    let r := makeMove g sock mo now
    (some r.1, setGame games gid r.2)

/-! The join case of the plain websocket-server variant
(websocket-server/src/index.ts).  Its game object keeps a Set of
spectators and a lastActivity stamp; its seating logic fills white first,
then black, then the spectator set, with no reconnection check at all. -/

structure WsGame where
  id : String
  players : Players
  spectators : List String
  lastActivity : Int
deriving DecidableEq, Repr

/-- Set.add on the spectator set. -/
def wsAddSpectator (l : List String) (c : String) : List String :=
  if c ∈ l then l else l ++ [c]

/-- The join case of the websocket-server message handler, after the game
has been found or freshly created. -/
def wsJoin (g : WsGame) (clientId : String) (now : Int) : WsGame :=
  let g :=
    if g.players.white.isNone then
      { g with players := { g.players with white := some clientId } }
    else if g.players.black.isNone then
      { g with players := { g.players with black := some clientId } }
    else
      { g with spectators := wsAddSpectator g.spectators clientId }
  { g with lastActivity := now }

/-- The game object the websocket-server variant creates when a join names
an unknown game id. -/
def wsFreshGame (gid : String) (now : Int) : WsGame :=
  { id := gid
    players := { white := none, black := none }
    spectators := []
    lastActivity := now }

/-! The makeMove handler of the stashed-changes variant of
chess-app/server/server.ts, the only variant implementing the
threefold-repetition check.  It truncates each stored FEN to its first
four space-separated fields (board, side to move, castling rights,
en-passant square), counts occurrences, and completes the game with a
threefold draw — but only at the end of an else-if chain behind
checkmate, stalemate and insufficient material. -/

/-- fen.split(" ").slice(0, 4).join(" "): the truncated repetition key. -/
def truncKey (fen : String) : String :=
  joinSpace ((splitSpaces fen).take 4)

/-- The repetition test: some key occurs at least three times among the
truncated keys of the position history. -/
def hasTriple (keys : List String) : Bool :=
  keys.any (fun pos => 3 ≤ (keys.filter (fun p => p = pos)).length)

/-- The engine data the stashed-changes makeMove handler reads back: the
FEN after the move and the three terminal queries run on a fresh validator
instance (its turn() equals the side-to-move field of that FEN). -/
structure StashedOutcome where
  fenAfter : String
  isCheckmate : Bool
  isStalemate : Bool
  isInsufficient : Bool
deriving DecidableEq, Repr

inductive StashedEnd where
  | checkmate (winner : String)
  | stalemate
  | insufficient
  | threefold
deriving DecidableEq, Repr

inductive StashedReply where
  | invalid
  | moved (ending : Option StashedEnd)
deriving DecidableEq, Repr

/-- game.positionHistory, lazily initialized from the current position
when the field is still missing. -/
def initHistory (g : GameState) : List String :=
  match g.positionHistory with
  | none => [g.position]
  | some h => h

/-- The stashed-changes makeMove handler after the game lookup.  Note
that this variant has no turn check and no status check; a move rejected
by the engine (none) only produces an error reply. -/
def stashedMakeMove (g : GameState) (mo : Option StashedOutcome)
    (fromSq toSq : String) (now : Int) : StashedReply × GameState :=
  match mo with
  | none => (.invalid, g)
  | some m =>
    let ph := initHistory g ++ [m.fenAfter]
    let keys := ph.map truncKey
    let threefold := hasTriple keys
    let g := { g with position := m.fenAfter
                      turn := fenTurn m.fenAfter
                      positionHistory := some ph
                      lastActivityTime := now
                      moveHistory :=
                        some ((g.moveHistory.getD []) ++ [fromSq ++ toSq]) }
    if m.isCheckmate then
      (.moved (some (.checkmate
          (if fenTurn m.fenAfter = "w" then "black" else "white"))),
        { g with status := .completed })
    else if m.isStalemate then
      (.moved (some .stalemate), { g with status := .completed })
    else if m.isInsufficient then
      (.moved (some .insufficient), { g with status := .completed })
    else if threefold then
      (.moved (some .threefold), { g with status := .completed })
    else
      (.moved none, g)

/-! Helper lemmas about the map and room primitives. -/

theorem lookupGame_setGame_self (l : List (String × GameState))
    (gid : String) (g : GameState) :
    lookupGame (setGame l gid g) gid = some g := by
  induction l with
  | nil => simp [setGame, lookupGame]
  | cons a t ih =>
    by_cases ha : a.1 = gid <;> simp [setGame, lookupGame, ha, ih]

theorem lookupGame_removeGame_self (l : List (String × GameState))
    (gid : String) :
    lookupGame (removeGame l gid) gid = none := by
  induction l with
  | nil => rfl
  | cons a t ih =>
    by_cases ha : a.1 = gid <;> simp [removeGame, lookupGame, ha, ih]

theorem lookupGame_removeGame_ne (l : List (String × GameState))
    (gid nid : String) (h : nid ≠ gid) :
    lookupGame (removeGame l gid) nid = lookupGame l nid := by
  induction l with
  | nil => rfl
  | cons a t ih =>
    have hg : ¬ gid = nid := fun e => h e.symm
    by_cases ha : a.1 = gid
    · have han : ¬ a.1 = nid := by
        rw [ha]; exact hg
      simp [removeGame, lookupGame, ha, han, hg, h, ih]
    · by_cases han : a.1 = nid <;>
        simp [removeGame, lookupGame, ha, han, hg, h, ih]

theorem mem_roomJoin_self (rooms : List (String × String))
    (sock room : String) : (sock, room) ∈ roomJoin rooms sock room := by
  unfold roomJoin
  split
  · assumption
  · simp

theorem mem_roomJoin_of_mem (rooms : List (String × String))
    (pr : String × String) (sock room : String) (h : pr ∈ rooms) :
    pr ∈ roomJoin rooms sock room := by
  unfold roomJoin
  split
  · exact h
  · exact List.mem_append_left _ h

theorem mem_roomJoin_elim (rooms : List (String × String))
    (pr : String × String) (sock room : String)
    (h : pr ∈ roomJoin rooms sock room) :
    pr ∈ rooms ∨ pr = (sock, room) := by
  unfold roomJoin at h
  split at h
  · exact Or.inl h
  · rcases List.mem_append.mp h with h1 | h2
    · exact Or.inl h1
    · simp at h2
      exact Or.inr h2

/-- Numeric rank of a status along the waiting, active, completed chain. -/
def statusRank : Status → Nat
  | .waiting => 0
  | .active => 1
  | .completed => 2

theorem statusRank_le_two (st : Status) : statusRank st ≤ 2 := by
  cases st <;> simp [statusRank]

/-! Characterization lemmas for the makeMove handler. -/

theorem makeMove_notTurn (g : GameState) (sock : String)
    (mo : Option MoveOutcome) (now : Int)
    (h : isPlayersTurn g sock = false) :
    makeMove g sock mo now = (.notYourTurn, g) := by
  unfold makeMove
  rw [h]
  rfl

theorem makeMove_invalid (g : GameState) (sock : String) (now : Int)
    (h : isPlayersTurn g sock = true) :
    makeMove g sock none now = (.invalidMove, g) := by
  unfold makeMove
  rw [h]
  rfl

theorem makeMove_success (g : GameState) (sock : String) (m : MoveOutcome)
    (now : Int) (h : isPlayersTurn g sock = true) :
    makeMove g sock (some m) now =
      (.moved,
        { g with
            position := m.fenAfter
            moveHistory := some m.historyAfter
            lastActivityTime := now
            status :=
              if m.isCheckmate || m.isDraw then .completed else g.status
            clock :=
              match g.clock with
              | some c => some (clockAfterMove c (fenTurn m.fenAfter) now)
              | none => none
            captures := some m.boardCaptures }) := by
  unfold makeMove
  rw [h]
  cases hm : m.isCheckmate <;> cases hd : m.isDraw <;>
    cases hc : g.clock <;> simp [hm, hd, hc]

/-- The status after makeMove is determined by the guards and the two
terminal flags of the engine outcome alone; in particular it does not
depend on the clock. -/
theorem makeMove_status (g : GameState) (sock : String)
    (mo : Option MoveOutcome) (now : Int) :
    (makeMove g sock mo now).2.status =
      match mo with
      | some m =>
        if isPlayersTurn g sock then
          (if m.isCheckmate || m.isDraw then Status.completed else g.status)
        else g.status
      | none => g.status := by
  cases h : isPlayersTurn g sock
  · rw [makeMove_notTurn g sock mo now h]
    cases mo <;> simp [h]
  · cases mo with
    | none =>
        rw [makeMove_invalid g sock now h]
    | some m =>
        rw [makeMove_success g sock m now h]
        simp [h]

/-! The seat invariant of the main server variant. -/

/-- No identity occupies both seats at once. -/
def seatsDistinct (p : Players) : Prop :=
  ∀ x : String, p.white = some x → p.black = some x → False

/-- Number of occupied seats. -/
def seatCount (p : Players) : Nat :=
  (if p.white.isSome then 1 else 0) + (if p.black.isSome then 1 else 0)

theorem seatCount_le_two (p : Players) : seatCount p ≤ 2 := by
  unfold seatCount
  split_ifs <;> simp

/-- The per-game states reachable through the handlers of the main server
variant, starting from a freshly created game.  The rematch step carries a
game over from the old game of a rematch request. -/
inductive ReachableGame : GameState → Prop where
  | create (gid sock : String) (now : Int) :
      ReachableGame (newGameFromCreate gid sock now)
  | join (g : GameState) (sock : String) (now : Int) :
      ReachableGame g → ReachableGame (joinGameFound g sock now).2
  | move (g : GameState) (sock : String) (mo : Option MoveOutcome)
      (now : Int) : ReachableGame g → ReachableGame (makeMove g sock mo now).2
  | resign (g : GameState) (now : Int) :
      ReachableGame g → ReachableGame (resignGame g now)
  | actionLeave (g : GameState) (sock : String) (now : Int) :
      ReachableGame g → ReachableGame (gameActionLeave g sock now)
  | leave (g g2 : GameState) (sock : String) :
      ReachableGame g → leaveGame g sock = some g2 → ReachableGame g2
  | disconnect (g : GameState) (sock : String) :
      ReachableGame g → ReachableGame (disconnectGame g sock)
  | rematch (old : GameState) (newId : String) (now : Int) :
      ReachableGame old → ReachableGame (rematchNewGame old newId now)

/-- The players field after the leave_game action: one of the two seats
was cleared, or nothing matched the requester. -/
theorem gameActionLeave_players (g : GameState) (sock : String) (now : Int) :
    (gameActionLeave g sock now).players = { g.players with white := none } ∨
    (gameActionLeave g sock now).players = { g.players with black := none } ∨
    (gameActionLeave g sock now).players = g.players := by
  simp only [gameActionLeave]
  split_ifs <;>
    first
      | exact Or.inl rfl
      | exact Or.inr (Or.inl rfl)
      | exact Or.inr (Or.inr rfl)

/-- The surviving game after the standalone leaveGame handler: a seat was
cleared or nothing matched, and the status was reset to waiting. -/
theorem leaveGame_some_players (g g2 : GameState) (sock : String)
    (h : leaveGame g sock = some g2) :
    (g2.players = { g.players with white := none } ∨
     g2.players = { g.players with black := none } ∨
     g2.players = g.players) ∧ g2.status = .waiting := by
  simp only [leaveGame] at h
  split_ifs at h with h1 h2 h3 h4 h5
  all_goals simp only [Option.some.injEq] at h
  all_goals first
    | exact absurd h (by simp)
    | (rw [← h]
       constructor
       · first
           | exact Or.inl rfl
           | exact Or.inr (Or.inl rfl)
           | exact Or.inr (Or.inr rfl)
       · rfl)

theorem seatsDistinct_clear_white (p : Players) :
    seatsDistinct { p with white := none } := by
  intro x hw _
  simp at hw

theorem seatsDistinct_clear_black (p : Players) :
    seatsDistinct { p with black := none } := by
  intro x _ hb
  simp at hb

/-- C5 (amended part): every game reachable through the handlers of the
main server variant keeps its two seats held by distinct identities, and
the two seats hold at most two occupants. -/
theorem seats_invariant_main_variant :
    ∀ g : GameState, ReachableGame g →
      seatsDistinct g.players ∧ seatCount g.players ≤ 2 := by
  intro g hg
  refine ⟨?_, seatCount_le_two _⟩
  induction hg with
  | create gid sock now =>
      intro x hw hb
      simp [newGameFromCreate] at hb
  | join g sock now hg ih =>
      by_cases h1 : g.players.white = some sock ∨ g.players.black = some sock
      · simpa [joinGameFound, h1] using ih
      · by_cases h2 : g.players.black.isSome ∧ g.players.white.isSome
        · by_cases h3 : MAX_SPECTATORS_PER_GAME ≤ g.spectators.length
          · simpa [joinGameFound, h1, h2, h3] using ih
          · simpa [joinGameFound, h1, h2, h3] using ih
        · by_cases h4 : g.players.black.isNone
          · push_neg at h1
            intro x hw hb
            simp [joinGameFound, h1.1, h1.2, h2, h4] at hw hb
            rw [← hb] at hw
            exact h1.1 hw
          · simpa [joinGameFound, h1, h2, h4] using ih
  | move g sock mo now hg ih =>
      cases h : isPlayersTurn g sock
      · rw [makeMove_notTurn g sock mo now h]
        exact ih
      · cases mo with
        | none =>
            rw [makeMove_invalid g sock now h]
            exact ih
        | some m =>
            rw [makeMove_success g sock m now h]
            simpa using ih
  | resign g now hg ih =>
      simpa [resignGame] using ih
  | actionLeave g sock now hg ih =>
      rcases gameActionLeave_players g sock now with h | h | h
      · rw [h]
        exact seatsDistinct_clear_white g.players
      · rw [h]
        exact seatsDistinct_clear_black g.players
      · rw [h]
        exact ih
  | leave g g2 sock hg hlv ih =>
      rcases (leaveGame_some_players g g2 sock hlv).1 with h | h | h
      · rw [h]
        exact seatsDistinct_clear_white g.players
      · rw [h]
        exact seatsDistinct_clear_black g.players
      · rw [h]
        exact ih
  | disconnect g sock hg ih =>
      unfold disconnectGame
      by_cases hs : sock ∈ g.spectators
      · simpa [hs] using ih
      · by_cases hp : (g.players.white = some sock ∨
            g.players.black = some sock) ∧ g.status = .active
        · simpa [hs, hp] using ih
        · simpa [hs, hp] using ih
  | rematch old newId now hg ih =>
      intro x hw hb
      simp [rematchNewGame] at hw hb
      exact ih x hb hw

/-! Claim C1: the join branches. -/

/-- A two-seat game reached through the handlers: A creates, B joins. -/
def exGameAB : GameState :=
  (joinGameFound (newGameFromCreate "g1" "A" 0) "B" 1).2

/-- A game whose white seat was vacated by the standalone leaveGame
handler while black stays seated, reached through the handlers. -/
def exGameBOnly : GameState :=
  (leaveGame exGameAB "A").getD exGameAB

/-- C1 counterexample: the claim says a join request occupying context
with a free seat occupies it, but when the free seat is white the join
request falls through every branch: the requester is neither seated nor
admitted as spectator and receives no reply.  The state is reached by A
creating, B joining, and A leaving. -/
theorem joinGame_white_seat_counterexample :
    exGameBOnly.players.white = none ∧
    exGameBOnly.players.black = some "B" ∧
    (joinGameFound exGameBOnly "C" 2).1 = JoinOutcome.ignored ∧
    (joinGameFound exGameBOnly "C" 2).2.players.white = none ∧
    (joinGameFound exGameBOnly "C" 2).2.spectators = [] := by
  decide

/-- C1 (amended): the join branches of the main server variant.  Unknown
id: not-found error, server untouched.  Identity already seated:
idempotent re-subscribe whose only state change is the activity stamp.
Both seats filled: spectator admission, or a capacity error once the
spectator cap is reached.  Black seat free: the requester takes the black
seat and status becomes active (whether or not white is filled).  White
seat free while black is taken: the request is silently ignored. -/
theorem joinGame_branches :
    (∀ (s : Server) (gid sock : String) (now : Int),
      lookupGame s.games gid = none →
        serverJoin s gid sock now = (JoinOutcome.notFound, s)) ∧
    (∀ (g : GameState) (sock : String) (now : Int),
      ((g.players.white = some sock ∨ g.players.black = some sock) →
        joinGameFound g sock now =
          (JoinOutcome.rejoined, { g with lastActivityTime := now })) ∧
      (¬(g.players.white = some sock ∨ g.players.black = some sock) →
        g.players.white.isSome → g.players.black.isSome →
        MAX_SPECTATORS_PER_GAME ≤ g.spectators.length →
          joinGameFound g sock now =
            (JoinOutcome.spectCapacity,
              { g with lastActivityTime := now })) ∧
      (¬(g.players.white = some sock ∨ g.players.black = some sock) →
        g.players.white.isSome → g.players.black.isSome →
        g.spectators.length < MAX_SPECTATORS_PER_GAME →
          (joinGameFound g sock now).1 = JoinOutcome.spectator ∧
          (joinGameFound g sock now).2.spectators =
            g.spectators ++ [sock] ∧
          (joinGameFound g sock now).2.players = g.players ∧
          (joinGameFound g sock now).2.status = g.status) ∧
      (¬(g.players.white = some sock ∨ g.players.black = some sock) →
        g.players.black = none →
          (joinGameFound g sock now).1 = JoinOutcome.seatedBlack ∧
          (joinGameFound g sock now).2.players =
            { g.players with black := some sock } ∧
          (joinGameFound g sock now).2.status = Status.active) ∧
      (¬(g.players.white = some sock ∨ g.players.black = some sock) →
        g.players.white = none → g.players.black.isSome →
          joinGameFound g sock now =
            (JoinOutcome.ignored, { g with lastActivityTime := now }))) := by
  constructor
  · intro s gid sock now h
    unfold serverJoin
    rw [h]
  · intro g sock now
    refine ⟨?_, ?_, ?_, ?_, ?_⟩
    · intro h1
      simp [joinGameFound, h1]
    · intro h1 hw hb hcap
      simp [joinGameFound, h1, hw, hb, hcap]
    · intro h1 hw hb hcap
      simp [joinGameFound, h1, hw, hb, Nat.not_le.mpr hcap]
    · intro h1 hb
      push_neg at h1
      have hb2 : ¬ g.players.black.isSome := by simp [hb]
      simp [joinGameFound, h1.1, h1.2, hb, hb2]
    · intro h1 hw hb
      push_neg at h1
      have hb2 : ¬ g.players.black.isNone := by
        cases hbp : g.players.black
        · rw [hbp] at hb
          simp at hb
        · simp
      have hw2 : ¬ g.players.white.isSome := by simp [hw]
      simp [joinGameFound, h1.1, h1.2, hw2, hb2]

/-- C1 witness: the amended branch characterization applied to an unknown
id on an empty server, and to B joining the fresh game created by A. -/
theorem joinGame_branches_witness :
    serverJoin ⟨[], []⟩ "g1" "A" 0 = (JoinOutcome.notFound, ⟨[], []⟩) ∧
    (joinGameFound (newGameFromCreate "g1" "A" 0) "B" 1).1 =
      JoinOutcome.seatedBlack ∧
    (joinGameFound (newGameFromCreate "g1" "A" 0) "B" 1).2.status =
      Status.active := by
  refine ⟨joinGame_branches.1 ⟨[], []⟩ "g1" "A" 0 rfl, ?_, ?_⟩
  · exact ((joinGame_branches.2 (newGameFromCreate "g1" "A" 0) "B"
      1).2.2.2.1 (by decide) (by decide)).1
  · exact ((joinGame_branches.2 (newGameFromCreate "g1" "A" 0) "B"
      1).2.2.2.1 (by decide) (by decide)).2.2

/-! Claim C2: the submitMove guards. -/

/-- The outcome of a legal opening move (1. e4) as read back from the
engine. -/
def exMoveE4 : MoveOutcome :=
  { fenAfter := "rnbqkbnr/pppppppp/8/8/4P3/8/PPPPPPPP/RNBQKBNR b KQkq e3 0 1"
    isCheckmate := false
    isDraw := false
    historyAfter := ["e4"]
    boardCaptures := { white := [], black := [] } }

/-- The two-seat game after white resigned: status completed, position
still the starting one. -/
def exGameResigned : GameState := resignGame exGameAB 2

/-- C2 counterexample: the claim says a submitMove on an already terminal
session fails with InvalidOperation, but the handler checks no session
status at all: a session completed by resignation still accepts a move
from the seat matching the side to move, and the position advances. -/
theorem makeMove_terminal_counterexample :
    exGameResigned.status = Status.completed ∧
    (makeMove exGameResigned "A" (some exMoveE4) 3).1 = MoveReply.moved ∧
    (makeMove exGameResigned "A" (some exMoveE4) 3).2.position =
      exMoveE4.fenAfter ∧
    exMoveE4.fenAfter ≠ exGameResigned.position := by
  decide

/-- C2 (amended): the makeMove guards of the main server variant.  A
requester not holding the seat matching the side to move gets the
not-your-turn error with the game unchanged; a move the engine rejects
gets the invalid-move error with the game unchanged; a request passing
both guards advances the position — for every game, its status included,
since the handler never consults the session status. -/
theorem makeMove_guards :
    ∀ (g : GameState) (sock : String) (mo : Option MoveOutcome) (now : Int),
      (isPlayersTurn g sock = false →
        makeMove g sock mo now = (MoveReply.notYourTurn, g)) ∧
      (isPlayersTurn g sock = true → mo = none →
        makeMove g sock mo now = (MoveReply.invalidMove, g)) ∧
      (∀ m : MoveOutcome, isPlayersTurn g sock = true → mo = some m →
        (makeMove g sock mo now).1 = MoveReply.moved ∧
        (makeMove g sock mo now).2.position = m.fenAfter) := by
  intro g sock mo now
  refine ⟨fun h => makeMove_notTurn g sock mo now h, ?_, ?_⟩
  · intro h he
    subst he
    exact makeMove_invalid g sock now h
  · intro m h he
    subst he
    rw [makeMove_success g sock m now h]
    exact ⟨rfl, rfl⟩

/-- C2 witness: black rebuffed while white is to move, and a legal white
move applied, both on the concrete two-seat game. -/
theorem makeMove_guards_witness :
    makeMove exGameAB "B" none 2 = (MoveReply.notYourTurn, exGameAB) ∧
    (makeMove exGameAB "A" (some exMoveE4) 2).1 = MoveReply.moved ∧
    (makeMove exGameAB "A" (some exMoveE4) 2).2.position =
      exMoveE4.fenAfter := by
  refine ⟨(makeMove_guards exGameAB "B" none 2).1 (by decide), ?_, ?_⟩
  · exact ((makeMove_guards exGameAB "A" (some exMoveE4) 2).2.2 exMoveE4
      (by decide) rfl).1
  · exact ((makeMove_guards exGameAB "A" (some exMoveE4) 2).2.2 exMoveE4
      (by decide) rfl).2

/-! Claim C3: clocks and timeout detection. -/

/-- Engine outcome of 1... e5. -/
def exMoveE5 : MoveOutcome :=
  { fenAfter :=
      "rnbqkbnr/pppp1ppp/8/4p3/4P3/8/PPPPPPPP/RNBQKBNR w KQkq e6 0 2"
    isCheckmate := false
    isDraw := false
    historyAfter := ["e4", "e5"]
    boardCaptures := { white := [], black := [] } }

/-- Engine outcome of 2. Nf3. -/
def exMoveNf3 : MoveOutcome :=
  { fenAfter :=
      "rnbqkbnr/pppp1ppp/8/4p3/4P3/5N2/PPPPPPPP/RNBQKB1R b KQkq - 1 2"
    isCheckmate := false
    isDraw := false
    historyAfter := ["e4", "e5", "Nf3"]
    boardCaptures := { white := [], black := [] } }

/-- Engine outcome of 2... Nc6. -/
def exMoveNc6 : MoveOutcome :=
  { fenAfter :=
      "r1bqkbnr/pppp1ppp/2n5/4p3/4P3/5N2/PPPPPPPP/RNBQKB1R w KQkq - 2 3"
    isCheckmate := false
    isDraw := false
    historyAfter := ["e4", "e5", "Nf3", "Nc6"]
    boardCaptures := { white := [], black := [] } }

/-- Four moves on the two-seat game; white thinks 400 seconds on its
third move, far past its five-minute allotment, so the move-boundary
debit leaves the white clock negative. -/
def exClockRun : GameState :=
  (makeMove
    (makeMove
      (makeMove
        (makeMove exGameAB "A" (some exMoveE4) 10).2
        "B" (some exMoveE5) 20).2
      "A" (some exMoveNf3) 400020).2
    "B" (some exMoveNc6) 400021).2

/-- C3 counterexample: a reachable state in which the side to move is
white, the white clock is already 100 seconds below zero, and the session
is still active; the only fixed-interval task of the server, the
cleanupGames sweep, passes the session through verbatim, so no timeout
transition ever happens without a further move. -/
theorem clock_timeout_counterexample :
    exClockRun.status = Status.active ∧
    fenTurn exClockRun.position = "w" ∧
    exClockRun.clock =
      some { white := -100000, black := 299989
             lastMoveTime := some 400021, started := true } ∧
    cleanupGames 400022 [("g1", exClockRun)] = [("g1", exClockRun)] := by
  decide

/-- C3 (amended): there is no interval-based timeout detection.  The
status after makeMove depends only on the guards and the terminal flags
reported by the engine — never on the clock values — and the periodic
cleanupGames sweep only deletes entries, passing every surviving session
through unchanged, so a clock reaching zero never completes a session. -/
theorem clock_no_timeout_detection :
    (∀ (g : GameState) (sock : String) (mo : Option MoveOutcome)
        (now : Int),
      (makeMove g sock mo now).2.status =
        match mo with
        | some m =>
          if isPlayersTurn g sock then
            (if m.isCheckmate || m.isDraw then Status.completed
             else g.status)
          else g.status
        | none => g.status) ∧
    (∀ (now : Int) (games : List (String × GameState))
        (e : String × GameState),
      e ∈ cleanupGames now games → e ∈ games) := by
  constructor
  · exact makeMove_status
  · intro now games e he
    exact (List.mem_filter.mp he).1

/-- C3 witness: the status characterization applied to the expired-clock
state (the status stays active although white is 100 seconds overdrawn),
and the sweep-preservation fact applied to its singleton registry. -/
theorem clock_no_timeout_detection_witness :
    (makeMove exClockRun "B" none 400023).2.status = Status.active ∧
    ("g1", exClockRun) ∈ [("g1", exClockRun)] := by
  constructor
  · rw [clock_no_timeout_detection.1 exClockRun "B" none 400023]
    decide
  · exact clock_no_timeout_detection.2 400022 [("g1", exClockRun)]
      ("g1", exClockRun) (by decide)

/-! Claim C4: status monotonicity. -/

/-- The server after A creates game g1. -/
def exServerA : Server := (serverCreate ⟨[], []⟩ "g1" "A" 0).getD ⟨[], []⟩

/-- The server after B also joins g1. -/
def exServerAB : Server := (serverJoin exServerA "g1" "B" 1).2

/-- C4 counterexample: status transitions are not monotonic.  On the
concrete two-seat active game, white leaving via the standalone leaveGame
handler reverts the surviving session to waiting; the same handler even
reverts a session already completed by resignation back to waiting. -/
theorem leaveGame_status_counterexample :
    exGameAB.status = Status.active ∧
    (leaveGame exGameAB "A").map (fun g => g.status) =
      some Status.waiting ∧
    exGameResigned.status = Status.completed ∧
    (leaveGame exGameResigned "A").map (fun g => g.status) =
      some Status.waiting := by
  decide

/-- C4 (amended): the move, resign and disconnect handlers never move a
session status backwards along waiting, active, completed, and a rematch
removes the old session and installs a brand-new one under a fresh id
instead of reversing any status; but the two leave handlers reset a
surviving session to waiting (and the join handler re-activates any game
whose black seat is free), so monotonicity fails for those operations. -/
theorem status_monotonic_forward_ops :
    (∀ (g : GameState) (sock : String) (mo : Option MoveOutcome)
        (now : Int),
      statusRank g.status ≤ statusRank (makeMove g sock mo now).2.status) ∧
    (∀ (g : GameState) (now : Int),
      statusRank g.status ≤ statusRank (resignGame g now).status) ∧
    (∀ (g : GameState) (sock : String),
      statusRank g.status ≤ statusRank (disconnectGame g sock).status) ∧
    (∀ (s : Server) (gid nid : String) (now : Int) (s2 : Server),
      nid ≠ gid → requestRematch s gid nid now = some s2 →
        lookupGame s2.games gid = none ∧
        ∃ old, lookupGame s.games gid = some old ∧
          lookupGame s2.games nid = some (rematchNewGame old nid now)) := by
  refine ⟨?_, ?_, ?_, ?_⟩
  · intro g sock mo now
    rw [makeMove_status]
    cases mo with
    | none => exact le_refl _
    | some m =>
        by_cases ht : isPlayersTurn g sock
        · by_cases hf : (m.isCheckmate || m.isDraw : Bool)
          · simp only [ht, hf, if_true]
            exact statusRank_le_two _
          · simp [ht, hf]
        · simp [ht]
  · intro g now
    simpa [resignGame] using statusRank_le_two _
  · intro g sock
    unfold disconnectGame
    split_ifs <;> first
      | exact le_refl _
      | simpa using statusRank_le_two _
  · intro s gid nid now s2 hne h
    unfold requestRematch at h
    cases hl : lookupGame s.games gid with
    | none =>
        rw [hl] at h
        exact absurd h (by simp)
    | some old =>
        rw [hl] at h
        simp only [Option.some.injEq] at h
        rw [← h]
        refine ⟨lookupGame_removeGame_self _ _, old, rfl, ?_⟩
        show lookupGame (removeGame (setGame s.games nid
          (rematchNewGame old nid now)) gid) nid = _
        rw [lookupGame_removeGame_ne _ gid nid hne,
          lookupGame_setGame_self]

/-- C4 witness: resignation on the concrete active game only moves the
status forward, and the concrete rematch removes g1 while installing the
fresh swapped game g2. -/
theorem status_monotonic_forward_ops_witness :
    statusRank exGameAB.status ≤ statusRank (resignGame exGameAB 2).status ∧
    lookupGame ((requestRematch exServerAB "g1" "g2" 3).getD
      ⟨[], []⟩).games "g1" = none := by
  constructor
  · exact status_monotonic_forward_ops.2.1 exGameAB 2
  · exact (status_monotonic_forward_ops.2.2.2 exServerAB "g1" "g2" 3
      ((requestRematch exServerAB "g1" "g2" 3).getD ⟨[], []⟩)
      (by decide) (by decide)).1

/-! Claim C6: the rematch handover. -/

/-- The server after the rematch request on the two-seat game. -/
def exServerRematch : Server :=
  (requestRematch exServerAB "g1" "g2" 3).getD ⟨[], []⟩

/-- C6 counterexample: after the rematch both players are joined to the
new room, but the handler never makes them leave the old one — A is still
subscribed to the g1 broadcast group — so the claim that both identities
are subscribed only to the new group fails.  (The old session is deleted
outright rather than marked completed.) -/
theorem rematch_room_counterexample :
    ("A", "g1") ∈ exServerRematch.rooms ∧
    ("B", "g1") ∈ exServerRematch.rooms ∧
    ("A", "g2") ∈ exServerRematch.rooms ∧
    lookupGame exServerRematch.games "g1" = none ∧
    (lookupGame exServerRematch.games "g2").map (fun g => g.players) =
      some { white := some "B", black := some "A" } := by
  decide

/-- C6 (amended): a rematch on a two-seat game removes the old session
from the registry, installs a successor under the fresh id whose white
seat holds the old black identity and whose black seat holds the old
white identity, and joins both identities to the new broadcast group —
while every existing room membership, the old group memberships included,
is preserved. -/
theorem rematch_swap_rooms :
    ∀ (s : Server) (gid nid : String) (now : Int) (old : GameState)
      (w b : String) (s2 : Server),
      lookupGame s.games gid = some old →
      old.players.white = some w → old.players.black = some b →
      nid ≠ gid →
      requestRematch s gid nid now = some s2 →
      lookupGame s2.games gid = none ∧
      lookupGame s2.games nid = some (rematchNewGame old nid now) ∧
      (rematchNewGame old nid now).players.white = some b ∧
      (rematchNewGame old nid now).players.black = some w ∧
      (w, nid) ∈ s2.rooms ∧ (b, nid) ∈ s2.rooms ∧
      (∀ pr : String × String, pr ∈ s.rooms → pr ∈ s2.rooms) := by
  intro s gid nid now old w b s2 hl hw hb hne h
  unfold requestRematch at h
  rw [hl] at h
  simp only [hw, hb, Option.some.injEq] at h
  rw [← h]
  refine ⟨lookupGame_removeGame_self _ _, ?_, ?_, ?_, ?_, ?_, ?_⟩
  · show lookupGame (removeGame (setGame s.games nid
      (rematchNewGame old nid now)) gid) nid = _
    rw [lookupGame_removeGame_ne _ gid nid hne, lookupGame_setGame_self]
  · simp [rematchNewGame, hb]
  · simp [rematchNewGame, hw]
  · exact mem_roomJoin_of_mem _ _ _ _ (mem_roomJoin_self _ _ _)
  · exact mem_roomJoin_self _ _ _
  · intro pr hpr
    exact mem_roomJoin_of_mem _ _ _ _ (mem_roomJoin_of_mem _ _ _ _ hpr)

/-- C6 witness: the rematch handover applied to the concrete two-seat
server: both players end up subscribed to the new g2 group and the new
seats are exactly swapped. -/
theorem rematch_swap_rooms_witness :
    ("A", "g2") ∈ exServerRematch.rooms ∧
    ("B", "g2") ∈ exServerRematch.rooms ∧
    lookupGame exServerRematch.games "g2" =
      some (rematchNewGame exGameAB "g2" 3) := by
  have h := rematch_swap_rooms exServerAB "g1" "g2" 3 exGameAB "A" "B"
    exServerRematch (by decide) (by decide) (by decide) (by decide)
    (by decide)
  exact ⟨h.2.2.2.2.1, h.2.2.2.2.2.1, h.2.1⟩

/-! Claim C7: the garbage-collection thresholds. -/

/-- The keep-predicate of the sweep is exactly the negation of the
disjunction of the three thresholds. -/
theorem cleanupKeep_iff (now : Int) (g : GameState) :
    cleanupKeep now g = true ↔
      ¬((g.status = Status.completed ∧
          now - g.lastActivityTime > COMPLETED_GAME_EXPIRY_TIME) ∨
        now - g.lastActivityTime > INACTIVE_GAME_EXPIRY_TIME ∨
        now - g.createdAt > GAME_EXPIRY_TIME) := by
  unfold cleanupKeep
  split_ifs with h1 h2 h3
  · simp [h1]
  · simp [h1, h2]
  · simp [h1, h2, h3]
  · simp [h1, h2, h3]

/-- C7: the cleanupGames sweep removes exactly the sessions meeting one
of the three independent thresholds — completed and idle beyond the
completed TTL, idle beyond the inactive TTL regardless of status, or
older than the maximum TTL regardless of status — and every session
meeting none of them survives unchanged. -/
theorem cleanup_exact_thresholds :
    ∀ (now : Int) (games : List (String × GameState))
      (e : String × GameState),
      e ∈ cleanupGames now games ↔
        e ∈ games ∧
        ¬((e.2.status = Status.completed ∧
            now - e.2.lastActivityTime > COMPLETED_GAME_EXPIRY_TIME) ∨
          now - e.2.lastActivityTime > INACTIVE_GAME_EXPIRY_TIME ∨
          now - e.2.createdAt > GAME_EXPIRY_TIME) := by
  intro now games e
  unfold cleanupGames
  rw [List.mem_filter, cleanupKeep_iff]

/-- C7 witness: a freshly created game five milliseconds old survives the
sweep; a completed game idle a touch over one hour is removed. -/
theorem cleanup_exact_thresholds_witness :
    ("g1", exGameAB) ∈ cleanupGames 5 [("g1", exGameAB)] ∧
    ("g1", exGameResigned) ∉ cleanupGames 3600003 [("g1", exGameResigned)] := by
  constructor
  · exact (cleanup_exact_thresholds 5 [("g1", exGameAB)]
      ("g1", exGameAB)).mpr ⟨by decide, by decide⟩
  · intro hmem
    have h := (cleanup_exact_thresholds 3600003 [("g1", exGameResigned)]
      ("g1", exGameResigned)).mp hmem
    exact h.2 (Or.inl (by decide))

/-! Claim C9: transactional error handling. -/

/-- A two-seat game whose spectator list is at the configured cap of 50,
reached by fifty spectator joins. -/
def exGameFull : GameState :=
  (List.range 50).foldl (fun g _ => (joinGameFound g "s" 2).2) exGameAB

set_option maxRecDepth 100000 in
/-- C9 counterexample: the claim says a failed operation leaves the
session state, lastActivityAt included, unchanged — but the join handler
bumps lastActivityTime before the spectator-capacity check, so the
requester gets the capacity error while the stored session has changed. -/
theorem join_capacity_activity_counterexample :
    exGameFull.spectators.length = 50 ∧
    exGameFull.lastActivityTime = 2 ∧
    (joinGameFound exGameFull "C" 5).1 = JoinOutcome.spectCapacity ∧
    (joinGameFound exGameFull "C" 5).2.lastActivityTime = 5 ∧
    (joinGameFound exGameFull "C" 5).2 ≠ exGameFull := by
  decide

/-- C9 (amended): error handling is transactional except for the activity
stamp of the join handler.  Both makeMove error replies leave the session
fully unchanged; a join naming an unknown id leaves the server fully
unchanged; but a join refused for spectator capacity has already bumped
lastActivityTime, and that is its only state change. -/
theorem error_state_effects :
    (∀ (g : GameState) (sock : String) (mo : Option MoveOutcome)
        (now : Int),
      (makeMove g sock mo now).1 = MoveReply.notYourTurn ∨
      (makeMove g sock mo now).1 = MoveReply.invalidMove →
        (makeMove g sock mo now).2 = g) ∧
    (∀ (s : Server) (gid sock : String) (now : Int),
      (serverJoin s gid sock now).1 = JoinOutcome.notFound →
        (serverJoin s gid sock now).2 = s) ∧
    (∀ (g : GameState) (sock : String) (now : Int),
      (joinGameFound g sock now).1 = JoinOutcome.spectCapacity →
        (joinGameFound g sock now).2 = { g with lastActivityTime := now }) := by
  refine ⟨?_, ?_, ?_⟩
  · intro g sock mo now h
    cases ht : isPlayersTurn g sock
    · rw [makeMove_notTurn g sock mo now ht]
    · cases mo with
      | none => rw [makeMove_invalid g sock now ht]
      | some m =>
          rw [makeMove_success g sock m now ht] at h
          rcases h with h | h <;> exact absurd h (by simp)
  · intro s gid sock now h
    unfold serverJoin at h ⊢
    cases hl : lookupGame s.games gid with
    | none => rfl
    | some g =>
        rw [hl] at h
        exact absurd h (by
          simp only [joinGameFound]
          split_ifs <;> simp)
  · intro g sock now
    simp only [joinGameFound]
    split_ifs <;> intro h <;> simp_all

set_option maxRecDepth 100000 in
/-- C9 witness: a turn-refused move leaves the concrete two-seat game
untouched, and the capacity-refused join on the full game changes exactly
the activity stamp. -/
theorem error_state_effects_witness :
    (makeMove exGameAB "B" none 2).2 = exGameAB ∧
    (joinGameFound exGameFull "C" 5).2 =
      { exGameFull with lastActivityTime := 5 } := by
  constructor
  · exact error_state_effects.1 exGameAB "B" none 2 (Or.inl (by decide))
  · exact error_state_effects.2.2 exGameFull "C" 5 (by decide)

/-! Claim C10: rematch games carry no clock. -/

/-- The successor game of a rematch on the two-seat game. -/
def exGameRematch : GameState := rematchNewGame exGameAB "g2" 3

/-- C10: a rematch successor is built without clock fields while a
created game carries the five-minute-per-side clock, and makeMove on a
clockless game leaves it clockless — the debit block is skipped outright,
so no time is ever debited on any move of a rematch game. -/
theorem rematch_no_clock :
    (∀ (old : GameState) (nid : String) (now : Int),
      (rematchNewGame old nid now).clock = none) ∧
    (∀ (gid sock : String) (now : Int),
      (newGameFromCreate gid sock now).clock =
        some { white := INITIAL_TIME, black := INITIAL_TIME
               lastMoveTime := none, started := false }) ∧
    (∀ (g : GameState) (sock : String) (mo : Option MoveOutcome)
        (now : Int),
      g.clock = none → (makeMove g sock mo now).2.clock = none) := by
  refine ⟨fun old nid now => rfl, fun gid sock now => rfl, ?_⟩
  intro g sock mo now hc
  cases ht : isPlayersTurn g sock
  · rw [makeMove_notTurn g sock mo now ht]
    exact hc
  · cases mo with
    | none =>
        rw [makeMove_invalid g sock now ht]
        exact hc
    | some m =>
        rw [makeMove_success g sock m now ht]
        simp [hc]

/-- C10 witness: a legal move played on the concrete rematch successor
leaves its clock absent. -/
theorem rematch_no_clock_witness :
    exGameRematch.clock = none ∧
    (makeMove exGameRematch "B" (some exMoveE4) 4).2.clock = none := by
  exact ⟨rfl, rematch_no_clock.2.2 exGameRematch "B" (some exMoveE4) 4 rfl⟩

/-! Claim C5: seat invariants.  The inductive invariant for the main
server variant is seats_invariant_main_variant above; the
websocket-server variant violates the claim. -/

/-- C5 counterexample: in the websocket-server variant a client that
joins the same game twice is seated in both seats — the join case fills
white, then black, with no check that the identity is already seated. -/
theorem ws_double_seat_counterexample :
    (wsJoin (wsJoin (wsFreshGame "g1" 0) "A" 1) "A" 2).players.white =
      some "A" ∧
    (wsJoin (wsJoin (wsFreshGame "g1" 0) "A" 1) "A" 2).players.black =
      some "A" := by
  decide

/-- C5 witness: the seat invariant evaluated on the concrete two-seat
game reached by a create followed by a join. -/
theorem seats_invariant_witness :
    seatsDistinct exGameAB.players ∧ seatCount exGameAB.players ≤ 2 :=
  seats_invariant_main_variant exGameAB
    (ReachableGame.join (newGameFromCreate "g1" "A" 0) "B" 1
      (ReachableGame.create "g1" "A" 0))

/-! Claim C8: threefold repetition.  The position FENs below walk a
double knight shuffle (Nf3 Nf6 Ng1 Ng8 twice), making the starting
position recur three times with growing move counters, and then continue
into a scholars mate. -/

def fenNf3a : String :=
  "rnbqkbnr/pppppppp/8/8/8/5N2/PPPPPPPP/RNBQKB1R b KQkq - 1 1"
def fenNf6a : String :=
  "rnbqkbnr/pppppppp/5n2/8/8/5N2/PPPPPPPP/RNBQKB1R w KQkq - 2 2"
def fenNg1a : String :=
  "rnbqkbnr/pppppppp/5n2/8/8/8/PPPPPPPP/RNBQKBNR b KQkq - 3 2"
def fenStart2 : String :=
  "rnbqkbnr/pppppppp/8/8/8/8/PPPPPPPP/RNBQKBNR w KQkq - 4 3"
def fenNf3b : String :=
  "rnbqkbnr/pppppppp/8/8/8/5N2/PPPPPPPP/RNBQKB1R b KQkq - 5 3"
def fenNf6b : String :=
  "rnbqkbnr/pppppppp/5n2/8/8/5N2/PPPPPPPP/RNBQKB1R w KQkq - 6 4"
def fenNg1b : String :=
  "rnbqkbnr/pppppppp/5n2/8/8/8/PPPPPPPP/RNBQKBNR b KQkq - 7 4"
def fenStart3 : String :=
  "rnbqkbnr/pppppppp/8/8/8/8/PPPPPPPP/RNBQKBNR w KQkq - 8 5"
def fenE4b : String :=
  "rnbqkbnr/pppppppp/8/8/4P3/8/PPPPPPPP/RNBQKBNR b KQkq e3 0 5"
def fenE5b : String :=
  "rnbqkbnr/pppp1ppp/8/4p3/4P3/8/PPPPPPPP/RNBQKBNR w KQkq e6 0 6"
def fenBc4 : String :=
  "rnbqkbnr/pppp1ppp/8/4p3/2B1P3/8/PPPP1PPP/RNBQK1NR b KQkq - 1 6"
def fenNc6r : String :=
  "r1bqkbnr/pppp1ppp/2n5/4p3/2B1P3/8/PPPP1PPP/RNBQK1NR w KQkq - 2 7"
def fenQh5 : String :=
  "r1bqkbnr/pppp1ppp/2n5/4p2Q/2B1P3/8/PPPP1PPP/RNB1K1NR b KQkq - 3 7"
def fenNf6r : String :=
  "r1bqkb1r/pppp1ppp/2n2n2/4p2Q/2B1P3/8/PPPP1PPP/RNB1K1NR w KQkq - 4 8"
def fenMate : String :=
  "r1bqkb1r/pppp1Qpp/2n2n2/4p3/2B1P3/8/PPPP1PPP/RNB1K1NR b KQkq - 0 8"

/-- The two-seat game just before the second Ng8 completes the triple
recurrence of the starting position. -/
def exRepGame : GameState :=
  { exGameAB with
      position := fenNg1b
      positionHistory := some [startFen, fenNf3a, fenNf6a, fenNg1a,
        fenStart2, fenNf3b, fenNf6b, fenNg1b] }

/-- The engine outcome of that second Ng8. -/
def exRepOutcome : StashedOutcome :=
  { fenAfter := fenStart3
    isCheckmate := false
    isStalemate := false
    isInsufficient := false }

/-- The game after the threefold draw fired, with play continued (the
handler keeps accepting moves on a completed session) up to the position
just before Qxf7 mate. -/
def exStashedGame : GameState :=
  { exGameAB with
      position := fenNf6r
      status := Status.completed
      positionHistory := some [startFen, fenNf3a, fenNf6a, fenNg1a,
        fenStart2, fenNf3b, fenNf6b, fenNg1b, fenStart3, fenE4b, fenE5b,
        fenBc4, fenNc6r, fenQh5, fenNf6r] }

/-- The engine outcome of the mating move Qxf7. -/
def exMateOutcome : StashedOutcome :=
  { fenAfter := fenMate
    isCheckmate := true
    isStalemate := false
    isInsufficient := false }

/-- C8 counterexample: the history holds a position repeated three times
by truncated key, yet the accepted move is reported as a checkmate win,
not a threefold draw — the else-if chain gives checkmate, stalemate and
insufficient material precedence over the repetition result. -/
theorem threefold_precedence_counterexample :
    hasTriple ((initHistory exStashedGame ++ [exMateOutcome.fenAfter]).map
      truncKey) = true ∧
    (stashedMakeMove exStashedGame (some exMateOutcome) "h5" "f7"
      60).2.status = Status.completed ∧
    (stashedMakeMove exStashedGame (some exMateOutcome) "h5" "f7" 60).1 =
      StashedReply.moved (some (StashedEnd.checkmate "white")) ∧
    StashedReply.moved (some (StashedEnd.checkmate "white")) ≠
      StashedReply.moved (some StashedEnd.threefold) := by
  decide

/-- C8 (amended): after any accepted move whose updated positionHistory
holds a position occurring three or more times by truncated key — board,
side to move, castling rights and en-passant rights, move counters
ignored — the session status becomes completed; the reported result is
the threefold draw provided the move is not simultaneously a checkmate,
stalemate or insufficient-material ending, which take precedence. -/
theorem threefold_completion :
    ∀ (g : GameState) (m : StashedOutcome) (fromSq toSq : String)
      (now : Int),
      hasTriple ((initHistory g ++ [m.fenAfter]).map truncKey) = true →
        (stashedMakeMove g (some m) fromSq toSq now).2.status =
          Status.completed ∧
        (m.isCheckmate = false → m.isStalemate = false →
          m.isInsufficient = false →
          (stashedMakeMove g (some m) fromSq toSq now).1 =
            StashedReply.moved (some StashedEnd.threefold)) := by
  intro g m fromSq toSq now h3
  have h4 : hasTriple (List.map truncKey (initHistory g) ++
      [truncKey m.fenAfter]) = true := by
    simpa using h3
  unfold stashedMakeMove
  constructor
  · cases hm : m.isCheckmate <;> cases hs : m.isStalemate <;>
      cases hi : m.isInsufficient <;> simp [hm, hs, hi, h4]
  · intro hm hs hi
    simp [hm, hs, hi, h4]

/-- C8 witness: the second Ng8 completes the triple recurrence of the
starting position and the handler reports the threefold draw with the
session completed. -/
theorem threefold_completion_witness :
    (stashedMakeMove exRepGame (some exRepOutcome) "f6" "g8"
      50).2.status = Status.completed ∧
    (stashedMakeMove exRepGame (some exRepOutcome) "f6" "g8" 50).1 =
      StashedReply.moved (some StashedEnd.threefold) := by
  have h := threefold_completion exRepGame exRepOutcome "f6" "g8" 50
    (by decide)
  exact ⟨h.1, h.2 rfl rfl rfl⟩

end Hyperchess
